import Mathlib

/-!
Shallow embedding of the Monthly Presence Aggregation and Compliance Engine of
the 3AM responsibility/activity backend.

The embedded code:
* the presence routes file (`src/unnamed/part_006`, first document): the helper
  `getMonthlyDocId`, the pure `calculateMonthlyStats`, and the four route
  handlers `POST /` (mark a day), `DELETE /:date` (unmark a day),
  `GET /stats/:year/:month`, and `POST /activity-participation`;
* `src/src/server/services/inHousePresenceService.js`: `calculateUserMonthlyStats`,
  the stats-relevant part of `getUserMonthlyPresence`, and `getPresenceOverview`.

Firestore is modelled as a string-keyed association list of monthly documents;
the per-user reads that `getPresenceOverview` performs concurrently are modelled
by a fetch function returning `Except Unit (Option MonthlyData)` (an exception,
a missing document, or the document). JavaScript numbers appearing in integer
positions are `Nat`; the one genuinely floating-point value in the claims,
`averagePresentDays`, is modelled over `ℚ` extended with `NaN` so that the
`0 / 0` produced for an empty roster is representable.
-/

namespace Presence

/-- JavaScript object with string keys, as an insertion-ordered association list. -/
abbrev JsObj (α : Type) := List (String × α)

/-- Property read `o[k]`: the value at key `k`, or `none` when the key is absent. -/
def objGet {α : Type} (o : JsObj α) (k : String) : Option α :=
  match o with
  | [] => none
  | (k', v') :: rest => if k' == k then some v' else objGet rest k

/-- Property write `o[k] = v`: replace in place when the key exists, else append. -/
def objSet {α : Type} (o : JsObj α) (k : String) (v : α) : JsObj α :=
  match o with
  | [] => [(k, v)]
  | (k', v') :: rest => if k' == k then (k', v) :: rest else (k', v') :: objSet rest k v

/-- Property removal `delete o[k]`. -/
def objDelete {α : Type} (o : JsObj α) (k : String) : JsObj α :=
  match o with
  | [] => []
  | (k', v') :: rest => if k' == k then objDelete rest k else (k', v') :: objDelete rest k

/-- Gregorian leap-year rule, as applied by the JavaScript `Date` calendar. -/
def isLeapYear (y : Nat) : Bool :=
  (y % 4 == 0 && y % 100 != 0) || (y % 400 == 0)

/-- Days in the 0-based `month` of `year`: the value of
`new Date(year, month + 1, 0).getDate()` for `month < 12`. -/
def daysInMonth (year month : Nat) : Nat :=
  if month == 1 then (if isLeapYear year then 29 else 28)
  else if month == 3 || month == 5 || month == 8 || month == 10 then 30
  else 31

/-- `String(n).padStart(2, '0')` for a natural number `n`. -/
def pad2 (n : Nat) : String :=
  if n < 10 then "0" ++ toString n else toString n

/-- Number of leap years `k` with `k < y` (year 0 is a leap year). -/
def leapCount (y : Nat) : Nat :=
  if y == 0 then 0 else 1 + (y - 1) / 4 - (y - 1) / 100 + (y - 1) / 400

/-- Days from 0000-01-01 to the given proleptic Gregorian date (`month` 0-based). -/
def dayNumber (year month day : Nat) : Nat :=
  365 * year + leapCount year + ((List.range month).map (daysInMonth year)).sum + (day - 1)

/-- Weekday of the date as returned by `Date.getUTCDay()`: 0 = Sunday .. 6 = Saturday.
The day 0000-01-01 of the proleptic Gregorian calendar is a Saturday. -/
def dayOfWeekUTC (year month day : Nat) : Nat :=
  (dayNumber year month day + 6) % 7

/-- The two-digit day strings of the Saturdays of a month, in order: the `saturdays`
array built by the day loop of `calculateMonthlyStats` (part_006 lines 25-38). -/
def saturdaysOf (year month : Nat) : List String :=
  (List.range (daysInMonth year month)).filterMap fun i =>
    if dayOfWeekUTC year month (i + 1) == 6 then some (pad2 (i + 1)) else none

/-- One marked day inside a monthly document: the object `{ type, timestamp }`
written by the mark routes (part_006 lines 116-119 and 357-360). -/
structure PresenceEntry where
  type : String
  timestamp : String
deriving DecidableEq

/-- The `compliance` sub-object of the stats returned by `calculateMonthlyStats`
(part_006 lines 51-58). -/
structure Compliance where
  meetsAllSaturdays : Bool
  meets8Days2Sats : Bool
  meets10Weekdays : Bool
  isCompliant : Bool
deriving DecidableEq

/-- The stats object returned by `calculateMonthlyStats` (part_006 lines 44-59). -/
structure MonthlyStats where
  totalDays : Nat
  presentDays : Nat
  totalSaturdays : Nat
  presentSaturdays : Nat
  saturdays : List String
  presentSaturdayDates : List String
  compliance : Compliance
deriving DecidableEq

/-- `calculateMonthlyStats(year, month, dates)` of part_006 lines 17-60.
`presentDays` is `Object.keys(dates).length`; the Saturday loop is split into the
enumeration `saturdaysOf` and the presence filter `dates[dayStr]` over it. -/
def calculateMonthlyStats (year month : Nat) (dates : JsObj PresenceEntry) :
    MonthlyStats :=
  let daysInM := daysInMonth year month
  let presentDays := dates.length
  let saturdays := saturdaysOf year month
  let presentSaturdays := saturdays.filter fun d => (objGet dates d).isSome
  { totalDays := daysInM
    presentDays := presentDays
    totalSaturdays := saturdays.length
    presentSaturdays := presentSaturdays.length
    saturdays := saturdays
    presentSaturdayDates := presentSaturdays
    compliance :=
      { meetsAllSaturdays := presentSaturdays.length == saturdays.length
        meets8Days2Sats := decide (8 ≤ presentDays) && decide (2 ≤ presentSaturdays.length)
        meets10Weekdays := decide (10 ≤ presentDays)
        isCompliant := (presentSaturdays.length == saturdays.length)
          || (decide (8 ≤ presentDays) && decide (2 ≤ presentSaturdays.length))
          || decide (10 ≤ presentDays) } }

/-- The stats object returned by `calculateUserMonthlyStats` of
`inHousePresenceService.js` lines 40-48: the three rule flags are inline fields
and there is no `isCompliant` property. -/
structure UserMonthlyStats where
  totalDays : Nat
  presentDays : Nat
  totalSaturdays : Nat
  presentSaturdays : Nat
  meetsAllSaturdays : Bool
  meets8Days2Sats : Bool
  meets10Weekdays : Bool
deriving DecidableEq

/-- `calculateUserMonthlyStats(year, month, dates)` of `inHousePresenceService.js`
lines 18-49. `dates` may be null or undefined (`none`), in which case
`presentDays` falls back to 0 and no Saturday counts as present. -/
def calculateUserMonthlyStats (year month : Nat) (dates : Option (JsObj PresenceEntry)) :
    UserMonthlyStats :=
  let daysInM := daysInMonth year month
  let presentDays := match dates with | some o => o.length | none => 0
  let saturdays := saturdaysOf year month
  let presentSaturdays := saturdays.filter fun d =>
    match dates with | some o => (objGet o d).isSome | none => false
  { totalDays := daysInM
    presentDays := presentDays
    totalSaturdays := saturdays.length
    presentSaturdays := presentSaturdays.length
    meetsAllSaturdays := presentSaturdays.length == saturdays.length
    meets8Days2Sats := decide (8 ≤ presentDays) && decide (2 ≤ presentSaturdays.length)
    meets10Weekdays := decide (10 ≤ presentDays) }

/-- JavaScript values appearing in a serialized stats object. -/
inductive JsVal where
  | num (n : Nat)
  | bool (b : Bool)
deriving DecidableEq

/-- The object literal returned by `calculateUserMonthlyStats`
(`inHousePresenceService.js` lines 40-48), as the key-value map the caller
receives: exactly seven properties, none of them named isCompliant. -/
def userStatsToObj (s : UserMonthlyStats) : JsObj JsVal :=
  [("totalDays", .num s.totalDays),
   ("presentDays", .num s.presentDays),
   ("totalSaturdays", .num s.totalSaturdays),
   ("presentSaturdays", .num s.presentSaturdays),
   ("meetsAllSaturdays", .bool s.meetsAllSaturdays),
   ("meets8Days2Sats", .bool s.meets8Days2Sats),
   ("meets10Weekdays", .bool s.meets10Weekdays)]

/-- The authenticated user fields the routes read from `req.user`; `username`
stands for the already-resolved value of `req.user.name || req.user.username`. -/
structure UserInfo where
  userId : String
  username : String
  userType : String
deriving DecidableEq

/-- One monthly presence document of the `user_presence` collection, as written
by the routes: `stats` and `updatedAt` are absent (`none`) on a freshly built
document and set before every persist. -/
structure MonthlyData where
  userId : String
  username : String
  userType : String
  year : Nat
  month : Nat
  dates : JsObj PresenceEntry
  createdAt : String
  stats : Option MonthlyStats
  updatedAt : Option String
deriving DecidableEq

/-- The `user_presence` collection: document id to monthly document. -/
abbrev Store := JsObj MonthlyData

/-- `getMonthlyDocId(userId, year, month)` of part_006 lines 10-12 (`month` 0-based). -/
def getMonthlyDocId (userId : String) (year month : Nat) : String :=
  userId ++ "_" ++ toString year ++ "_" ++ pad2 (month + 1)

/-- Outcome of the `POST /` mark route: the 400 conflict response, or the 201
success response carrying the fresh stats. -/
inductive MarkResult where
  | conflict (status : Nat) (errorMsg : String)
  | marked (status : Nat) (message : String) (stats : MonthlyStats)
deriving DecidableEq

/-- The fresh monthly document built when no document exists yet
(part_006 lines 103-112 and 345-353). -/
def newMonthlyDoc (user : UserInfo) (year monthIndex : Nat) (now : String) :
    MonthlyData :=
  { userId := user.userId
    username := user.username
    userType := user.userType
    year := year
    month := monthIndex
    dates := []
    createdAt := now
    stats := none
    updatedAt := none }

/-- The `POST /` handler of part_006 lines 67-140, after the regex validation of
the date string: `year`, `month`, `day` are the three numbers parsed from the
`YYYY-MM-DD` input (`month` 1-based), `type` the request's kind, `now` the
current timestamp. Returns the response and the updated collection. -/
def markDay (store : Store) (user : UserInfo) (year month day : Nat)
    (type now : String) : MarkResult × Store :=
  let monthIndex := month - 1
  let dayStr := pad2 day
  let docId := getMonthlyDocId user.userId year monthIndex
  let monthlyData : MonthlyData :=
    match objGet store docId with
    | some md => md
    | none => newMonthlyDoc user year monthIndex now
  if (objGet monthlyData.dates dayStr).isSome then
    (.conflict 400 "Presence already marked for this date", store)
  else
    let newDates := objSet monthlyData.dates dayStr { type := type, timestamp := now }
    let stats := calculateMonthlyStats year monthIndex newDates
    (.marked 201 "Presence marked successfully" stats,
     objSet store docId
       { monthlyData with dates := newDates, stats := some stats, updatedAt := some now })

/-- Outcome of the `DELETE /:date` unmark route. -/
inductive UnmarkResult where
  | notFound (status : Nat) (errorMsg : String)
  | removed (status : Nat) (message : String)
deriving DecidableEq

/-- The `DELETE /:date` handler of part_006 lines 147-194, after the regex
validation of the date string. -/
def unmarkDay (store : Store) (user : UserInfo) (year month day : Nat)
    (now : String) : UnmarkResult × Store :=
  let monthIndex := month - 1
  let dayStr := pad2 day
  let docId := getMonthlyDocId user.userId year monthIndex
  match objGet store docId with
  | none => (.notFound 404 "No presence record found for this month", store)
  | some monthlyData =>
    if (objGet monthlyData.dates dayStr).isSome then
      let newDates := objDelete monthlyData.dates dayStr
      let stats := calculateMonthlyStats year monthIndex newDates
      (.removed 200 "Presence removed successfully",
       objSet store docId
         { monthlyData with dates := newDates, stats := some stats, updatedAt := some now })
    else
      (.notFound 404 "Presence record not found for this date", store)

/-- An HTTP response of the activity-participation route: express status code
and response message. -/
structure HttpResponse where
  status : Nat
  message : String
deriving DecidableEq

/-- The `POST /activity-participation` handler of part_006 lines 319-378: marks
the activity date with kind `activity`; when the day is already marked it
answers 200 (express default status) without touching the store, instead of the
400 conflict of the plain mark route. -/
def markFromActivity (store : Store) (user : UserInfo) (year month day : Nat)
    (now : String) : HttpResponse × Store :=
  let monthIndex := month - 1
  let dayStr := pad2 day
  let docId := getMonthlyDocId user.userId year monthIndex
  let monthlyData : MonthlyData :=
    match objGet store docId with
    | some md => md
    | none => newMonthlyDoc user year monthIndex now
  if (objGet monthlyData.dates dayStr).isSome then
    ({ status := 200, message := "Presence already marked for this date" }, store)
  else
    let newDates := objSet monthlyData.dates dayStr { type := "activity", timestamp := now }
    let stats := calculateMonthlyStats year monthIndex newDates
    ({ status := 201, message := "Presence marked through activity participation" },
     objSet store docId
       { monthlyData with dates := newDates, stats := some stats, updatedAt := some now })

/-- Observer: the entry stored for `(userId, year, month, day)` (`month` 1-based,
as in the parsed date string). -/
def entryAt (store : Store) (userId : String) (year month day : Nat) :
    Option PresenceEntry :=
  (objGet store (getMonthlyDocId userId year (month - 1))).bind fun md =>
    objGet md.dates (pad2 day)

/-- One element of the `presenceRecords` array built by `getUserMonthlyPresence`
(`inHousePresenceService.js` lines 152-162); `markedAt` is `none` because the
mark routes store the timestamp under the key `timestamp`, so `data.markedAt`
is undefined. -/
structure PresenceRecord where
  id : String
  date : String
  type : String
  markedAt : Option String
deriving DecidableEq

/-- Insertion of a record into a date-sorted list, ascending. -/
def insertByDate (r : PresenceRecord) : List PresenceRecord → List PresenceRecord
  | [] => [r]
  | x :: xs => if r.date < x.date then r :: x :: xs else x :: insertByDate r xs

/-- The sort `presenceRecords.sort((a, b) => a.date.localeCompare(b.date))`,
modelled as insertion sort over the lexicographic string order. -/
def sortByDate : List PresenceRecord → List PresenceRecord
  | [] => []
  | x :: xs => insertByDate x (sortByDate xs)

/-- The result of `getUserMonthlyPresence` minus the user-info lookup
(`inHousePresenceService.js` lines 172-179). -/
structure MonthlyPresenceResult where
  presenceRecords : List PresenceRecord
  stats : UserMonthlyStats
  month : Nat
  year : Nat
  totalRecords : Nat
deriving DecidableEq

/-- The presence part of `getUserMonthlyPresence(userId, year, month)`
(`inHousePresenceService.js` lines 116-180), with the Firebase Auth user lookup
(which only supplies the `user` field of the result) factored out. `month` is
1-based and converted to the 0-based `monthNum` on entry. -/
def getUserMonthlyPresence (store : Store) (userId : String) (year month : Nat) :
    MonthlyPresenceResult :=
  let yearNum := year
  let monthNum := month - 1
  let docId := getMonthlyDocId userId yearNum monthNum
  match objGet store docId with
  | none =>
      { presenceRecords := []
        stats := calculateUserMonthlyStats yearNum monthNum (some [])
        month := monthNum + 1
        year := yearNum
        totalRecords := 0 }
  | some monthlyData =>
      let records := monthlyData.dates.map fun p =>
        { id := docId ++ "_" ++ p.1
          date := toString yearNum ++ "-" ++ pad2 (monthNum + 1) ++ "-" ++ p.1
          type := p.2.type
          markedAt := none : PresenceRecord }
      let sorted := sortByDate records
      { presenceRecords := sorted
        stats := calculateUserMonthlyStats yearNum monthNum (some monthlyData.dates)
        month := monthNum + 1
        year := yearNum
        totalRecords := sorted.length }

/-- A roster member as supplied by the external directory
(`getAllInHouseUsers`); the account timestamps, which no aggregation reads,
are omitted. -/
structure RosterUser where
  userId : String
  name : String
  email : String
  username : String
deriving DecidableEq

/-- One element of the per-user array of `getPresenceOverview`
(`inHousePresenceService.js` lines 216-230): the spread roster user plus stats,
present dates, the `hasData` flag, and the `error` flag that only the catch
branch sets (it is absent, hence falsy, on success). -/
structure OverviewUser where
  user : RosterUser
  stats : UserMonthlyStats
  presentDates : List String
  hasData : Bool
  error : Bool
deriving DecidableEq

/-- A JavaScript number as produced by the roster-wide reductions: a rational
value or the non-number `NaN`. -/
inductive JsNumber where
  | num (q : ℚ)
  | nan
deriving DecidableEq

/-- JavaScript division on the values reachable in `overallStats`: a finite
quotient when the divisor is non-zero, and `NaN` for `0 / 0` (the dividend is a
sum of non-negative counts, so the infinite cases cannot arise there; they are
mapped to `NaN` as well, which keeps the function total without affecting any
reachable value). -/
def jsDiv (a b : ℚ) : JsNumber :=
  if b = 0 then .nan else .num (a / b)

/-- The `overallStats` object of `getPresenceOverview`
(`inHousePresenceService.js` lines 236-244). -/
structure OverallStats where
  totalUsers : Nat
  usersWithData : Nat
  usersWithErrors : Nat
  averagePresentDays : JsNumber
  usersMetAllSaturdays : Nat
  usersMet8Days2Sats : Nat
  usersMet10Weekdays : Nat
deriving DecidableEq

/-- The value returned by `getPresenceOverview`
(`inHousePresenceService.js` lines 246-251). -/
structure Overview where
  users : List OverviewUser
  overallStats : OverallStats
  month : Nat
  year : Nat
deriving DecidableEq

/-- The per-user body of the `Promise.all` fan-out of `getPresenceOverview`
(`inHousePresenceService.js` lines 198-232): `fetchDoc` models the awaited
Firestore read, which may throw (`Except.error`), find no document (`ok none`),
or return the document. The catch branch substitutes empty stats and sets
`error`; it never propagates the exception. -/
def overviewForUser (fetchDoc : String → Except Unit (Option MonthlyData))
    (yearNum monthNum : Nat) (user : RosterUser) : OverviewUser :=
  match fetchDoc (getMonthlyDocId user.userId yearNum monthNum) with
  | .error _ =>
      { user := user
        stats := calculateUserMonthlyStats yearNum monthNum (some [])
        presentDates := []
        hasData := false
        error := true }
  | .ok none =>
      { user := user
        stats := calculateUserMonthlyStats yearNum monthNum (some [])
        presentDates := []
        hasData := false
        error := false }
  | .ok (some monthlyData) =>
      { user := user
        stats := calculateUserMonthlyStats yearNum monthNum (some monthlyData.dates)
        presentDates := monthlyData.dates.map fun p =>
          toString yearNum ++ "-" ++ pad2 (monthNum + 1) ++ "-" ++ p.1
        hasData := true
        error := false }

/-- `getPresenceOverview(year, month)` of `inHousePresenceService.js` lines
185-252, with the roster (`getAllInHouseUsers`) and the per-document reads
passed in as parameters. The `Promise.all` fan-in preserves the roster order,
which the sequential `List.map` reproduces. `month` is 1-based. -/
def getPresenceOverview (fetchDoc : String → Except Unit (Option MonthlyData))
    (users : List RosterUser) (year month : Nat) : Overview :=
  let yearNum := year
  let monthNum := month - 1
  let userPresenceData := users.map (overviewForUser fetchDoc yearNum monthNum)
  { users := userPresenceData
    overallStats :=
      { totalUsers := users.length
        usersWithData := (userPresenceData.filter fun u => u.hasData).length
        usersWithErrors := (userPresenceData.filter fun u => u.error).length
        averagePresentDays :=
          jsDiv (userPresenceData.foldl (fun s u => s + (u.stats.presentDays : ℚ)) 0)
            (users.length : ℚ)
        usersMetAllSaturdays := (userPresenceData.filter fun u => u.stats.meetsAllSaturdays).length
        usersMet8Days2Sats := (userPresenceData.filter fun u => u.stats.meets8Days2Sats).length
        usersMet10Weekdays := (userPresenceData.filter fun u => u.stats.meets10Weekdays).length }
    month := monthNum + 1
    year := yearNum }

theorem objGet_objSet_self {α : Type} (o : JsObj α) (k : String) (v : α) :
    objGet (objSet o k v) k = some v := by
  induction o with
  | nil => simp [objSet, objGet]
  | cons p rest ih =>
    obtain ⟨k', v'⟩ := p
    by_cases h : k' == k
    · simp [objSet, objGet, h]
    · simp only [objSet, objGet, h, if_neg, Bool.false_eq_true, if_false]
      exact ih

theorem objDelete_objSet_of_get_none {α : Type} (o : JsObj α) (k : String) (v : α)
    (h : objGet o k = none) : objDelete (objSet o k v) k = o := by
  induction o with
  | nil => simp [objSet, objDelete, beq_self_eq_true]
  | cons p rest ih =>
    obtain ⟨k', v'⟩ := p
    by_cases hk : k' == k
    · simp [objGet, hk] at h
    · simp only [objGet, hk, Bool.false_eq_true, if_false] at h
      simp only [objSet, objDelete, hk, Bool.false_eq_true, if_false, List.cons.injEq,
        true_and]
      exact ih h

theorem filter_isSome_objGet_nil (l : List String) :
    (l.filter fun d => (objGet ([] : JsObj PresenceEntry) d).isSome) = [] := by
  simp [objGet]

/-- Claim C7 — `calculateMonthlyStats` on an empty entries map: zero present
days and Saturdays, the 8-and-2 and 10-day rules both fail, and both
`meetsAllSaturdays` and `isCompliant` hold exactly when the month has no
Saturdays. -/
theorem calculateMonthlyStats_empty (year month : Nat) :
    (calculateMonthlyStats year month []).presentDays = 0 ∧
    (calculateMonthlyStats year month []).presentSaturdays = 0 ∧
    (calculateMonthlyStats year month []).compliance.meets8Days2Sats = false ∧
    (calculateMonthlyStats year month []).compliance.meets10Weekdays = false ∧
    ((calculateMonthlyStats year month []).compliance.meetsAllSaturdays = true ↔
      (calculateMonthlyStats year month []).totalSaturdays = 0) ∧
    ((calculateMonthlyStats year month []).compliance.isCompliant = true ↔
      (calculateMonthlyStats year month []).totalSaturdays = 0) := by
  simp only [calculateMonthlyStats, filter_isSome_objGet_nil]
  refine ⟨rfl, rfl, by simp, by simp, ?_, ?_⟩ <;>
    simp only [List.length_nil, beq_iff_eq, Bool.or_eq_true, Bool.and_eq_true,
      decide_eq_true_eq] <;>
    omega

/-- Claim C1 (amended) — the stats of `calculateMonthlyStats` carry an
`isCompliant` flag equal to the disjunction of the three rule flags, while the
per-user stats of `calculateUserMonthlyStats` (the values `getUserMonthlyPresence`
and `getPresenceOverview` return) carry no `isCompliant` property at all. -/
theorem isCompliant_or_of_flags :
    (∀ year month dates,
      (calculateMonthlyStats year month dates).compliance.isCompliant =
        ((calculateMonthlyStats year month dates).compliance.meetsAllSaturdays ||
         (calculateMonthlyStats year month dates).compliance.meets8Days2Sats ||
         (calculateMonthlyStats year month dates).compliance.meets10Weekdays)) ∧
    (∀ year month dates,
      objGet (userStatsToObj (calculateUserMonthlyStats year month dates))
        "isCompliant" = none) := by
  constructor
  · intro year month dates
    rfl
  · intro year month dates
    rfl

/-- Claim C1, counterexample to the claim as stated — the per-user stats object
returned by `calculateUserMonthlyStats` (and hence by `getUserMonthlyPresence`
and `getPresenceOverview`) for February 2024 has no `isCompliant` property. -/
theorem userStats_isCompliant_missing :
    objGet (userStatsToObj (calculateUserMonthlyStats 2024 1 (some []))) "isCompliant" =
      none ∧
    ((getPresenceOverview (fun _ => .ok none)
        [{ userId := "u1", name := "U One", email := "u1@x", username := "u1" }]
        2024 2).users.map fun u => objGet (userStatsToObj u.stats) "isCompliant") =
      [none] := by
  constructor <;> rfl

/-- Claim C10 — on an empty roster the average divides `0` by `0`, so
`averagePresentDays` is `NaN` while every other roster-wide reduction is `0`. -/
theorem overview_empty_roster_nan (fetchDoc : String → Except Unit (Option MonthlyData))
    (year month : Nat) :
    (getPresenceOverview fetchDoc [] year month).overallStats =
      { totalUsers := 0
        usersWithData := 0
        usersWithErrors := 0
        averagePresentDays := .nan
        usersMetAllSaturdays := 0
        usersMet8Days2Sats := 0
        usersMet10Weekdays := 0 } := by
  simp [getPresenceOverview, jsDiv]

/-- Claim C4 — with no stored monthly document, `getUserMonthlyPresence`
synthesizes an empty result whose stats are `calculateUserMonthlyStats` of the
empty entries map, and a stored document with an empty entries map yields the
same stats. -/
theorem getMonth_absent_synthesizes_empty (store store2 : Store) (userId : String)
    (year month : Nat) (md : MonthlyData)
    (h1 : objGet store (getMonthlyDocId userId year (month - 1)) = none)
    (h2 : objGet store2 (getMonthlyDocId userId year (month - 1)) = some md)
    (h3 : md.dates = []) :
    getUserMonthlyPresence store userId year month =
      { presenceRecords := []
        stats := calculateUserMonthlyStats year (month - 1) (some [])
        month := (month - 1) + 1
        year := year
        totalRecords := 0 } ∧
    (getUserMonthlyPresence store2 userId year month).stats =
      (getUserMonthlyPresence store userId year month).stats := by
  constructor
  · simp only [getUserMonthlyPresence, h1]
  · simp only [getUserMonthlyPresence, h1, h2, h3]

/-- Fixed request user for concrete evaluations. -/
def sampleUser : UserInfo :=
  { userId := "u1", username := "User One", userType := "inhouse" }

/-- Claim C8, failing input — the date `2024-02-31` passes the route's
format-only regex, and `markDay` then stores an entry under day key `31` in the
February 2024 document even though that month has only 29 days: the claimed
calendar-validity invariant is not enforced. -/
theorem markDay_accepts_invalid_calendar_day :
    daysInMonth 2024 1 = 29 ∧
    entryAt (markDay [] sampleUser 2024 2 31 "manual" "t0").2 "u1" 2024 2 31 =
      some { type := "manual", timestamp := "t0" } ∧
    (markDay [] sampleUser 2024 2 31 "manual" "t0").1 =
      .marked 201 "Presence marked successfully"
        (calculateMonthlyStats 2024 1 [("31", { type := "manual", timestamp := "t0" })]) := by
  refine ⟨by decide, ?_, ?_⟩ <;> rfl

/-- Claim C2 — on a day with no entry, `markDay` succeeds with 201 (creating
the monthly document when absent, inserting the entry, recomputing the stored
stats), and a second `markDay` for the same (user, year, month, day) answers
the 400 conflict and leaves the store — in particular the entry's kind and
timestamp — unchanged. -/
theorem markDay_then_markDay_conflict (store : Store) (user : UserInfo)
    (year month day : Nat) (type now type2 now2 : String)
    (hmonth : 1 ≤ month)
    (habsent : entryAt store user.userId year month day = none) :
    ∃ stats store2,
      markDay store user year month day type now =
        (.marked 201 "Presence marked successfully" stats, store2) ∧
      entryAt store2 user.userId year month day =
        some { type := type, timestamp := now } ∧
      (∃ md2, objGet store2 (getMonthlyDocId user.userId year (month - 1)) = some md2 ∧
        md2.stats = some (calculateMonthlyStats year (month - 1) md2.dates)) ∧
      markDay store2 user year month day type2 now2 =
        (.conflict 400 "Presence already marked for this date", store2) := by
  unfold entryAt at habsent
  cases hdoc : objGet store (getMonthlyDocId user.userId year (month - 1)) with
  | none =>
    simp only [markDay, hdoc, newMonthlyDoc, objGet, Option.isSome_none,
      Bool.false_eq_true, if_false]
    refine ⟨_, _, rfl, ?_, ⟨_, objGet_objSet_self _ _ _, rfl⟩, ?_⟩
    · simp [entryAt, objGet_objSet_self]
    · simp [markDay, objGet_objSet_self]
  | some md =>
    rw [hdoc] at habsent
    simp only [Option.some_bind] at habsent
    simp only [markDay, hdoc, habsent, Option.isSome_none, Bool.false_eq_true, if_false]
    refine ⟨_, _, rfl, ?_, ⟨_, objGet_objSet_self _ _ _, rfl⟩, ?_⟩
    · simp [entryAt, objGet_objSet_self]
    · simp [markDay, objGet_objSet_self]

/-- Claim C5 — marking an unmarked day and then unmarking it restores the
stored monthly document's entries map and stats to the pre-mark baseline: for
an existing document (whose stored stats are, as on every write path, the
recomputation over its entries) both come back unchanged, and for an absent
document the round trip leaves a document with empty entries and the
empty-recomputed stats. -/
theorem mark_unmark_roundtrip (store : Store) (user : UserInfo)
    (year month day : Nat) (type now now2 : String) (hmonth : 1 ≤ month) :
    (∀ md, objGet store (getMonthlyDocId user.userId year (month - 1)) = some md →
      objGet md.dates (pad2 day) = none →
      md.stats = some (calculateMonthlyStats year (month - 1) md.dates) →
      ∃ md3,
        objGet (unmarkDay (markDay store user year month day type now).2 user year
            month day now2).2 (getMonthlyDocId user.userId year (month - 1)) =
          some md3 ∧
        md3.dates = md.dates ∧ md3.stats = md.stats) ∧
    (objGet store (getMonthlyDocId user.userId year (month - 1)) = none →
      ∃ md3,
        objGet (unmarkDay (markDay store user year month day type now).2 user year
            month day now2).2 (getMonthlyDocId user.userId year (month - 1)) =
          some md3 ∧
        md3.dates = [] ∧
        md3.stats = some (calculateMonthlyStats year (month - 1) [])) := by
  constructor
  · intro md hdoc habsent hinv
    simp only [markDay, hdoc, habsent, Option.isSome_none, Bool.false_eq_true, if_false]
    simp only [unmarkDay, objGet_objSet_self, objGet_objSet_self _ _ _,
      Option.isSome_some, if_true,
      objDelete_objSet_of_get_none _ _ _ habsent]
    exact ⟨_, rfl, rfl, hinv.symm⟩
  · intro hdoc
    simp only [markDay, hdoc, newMonthlyDoc, objGet, Option.isSome_none,
      Bool.false_eq_true, if_false]
    simp only [unmarkDay, objGet_objSet_self, objGet_objSet_self _ _ _,
      Option.isSome_some, if_true,
      objDelete_objSet_of_get_none _ _ _ (rfl : objGet [] (pad2 day) = none)]
    exact ⟨_, rfl, rfl, rfl⟩

/-- Claim C9 — `markFromActivity` on an already-marked day answers 200
"already marked" without touching the store; on an unmarked day it answers 201
and stores the entry with kind `activity`; and the two responses are
distinguishable. -/
theorem markFromActivity_noop_on_conflict (store : Store) (user : UserInfo)
    (year month day : Nat) (now : String) (hmonth : 1 ≤ month) :
    ((entryAt store user.userId year month day).isSome = true →
      markFromActivity store user year month day now =
        ({ status := 200, message := "Presence already marked for this date" }, store)) ∧
    (entryAt store user.userId year month day = none →
      (markFromActivity store user year month day now).1 =
        { status := 201, message := "Presence marked through activity participation" } ∧
      entryAt (markFromActivity store user year month day now).2 user.userId year
          month day =
        some { type := "activity", timestamp := now }) ∧
    ({ status := 200, message := "Presence already marked for this date" } :
        HttpResponse) ≠
      { status := 201, message := "Presence marked through activity participation" } := by
  refine ⟨?_, ?_, by decide⟩
  · intro hsome
    unfold entryAt at hsome
    cases hdoc : objGet store (getMonthlyDocId user.userId year (month - 1)) with
    | none => rw [hdoc] at hsome; simp at hsome
    | some md =>
      rw [hdoc] at hsome
      simp only [Option.some_bind] at hsome
      simp only [markFromActivity, hdoc, hsome, if_true]
  · intro habsent
    unfold entryAt at habsent
    cases hdoc : objGet store (getMonthlyDocId user.userId year (month - 1)) with
    | none =>
      simp only [markFromActivity, hdoc, newMonthlyDoc, objGet, Option.isSome_none,
        Bool.false_eq_true, if_false]
      exact ⟨trivial, by simp [entryAt, objGet_objSet_self]⟩
    | some md =>
      rw [hdoc] at habsent
      simp only [Option.some_bind] at habsent
      simp only [markFromActivity, hdoc, habsent, Option.isSome_none,
        Bool.false_eq_true, if_false]
      exact ⟨trivial, by simp [entryAt, objGet_objSet_self]⟩

/-- Claim C3 — the overview's per-user array has exactly one element per roster
member, at the roster position; when the fetch for a user fails, that user's
element carries the empty-computed stats and the failure flag, and the
aggregation still produces the full array. -/
theorem overview_isolates_failures
    (fetchDoc : String → Except Unit (Option MonthlyData)) (users : List RosterUser)
    (year month : Nat) (u : RosterUser) (i : Nat)
    (hu : users[i]? = some u)
    (hfail : fetchDoc (getMonthlyDocId u.userId year (month - 1)) = .error ()) :
    (getPresenceOverview fetchDoc users year month).users.length = users.length ∧
    (getPresenceOverview fetchDoc users year month).users[i]? =
      some { user := u
             stats := calculateUserMonthlyStats year (month - 1) (some [])
             presentDates := []
             hasData := false
             error := true } := by
  constructor
  · simp [getPresenceOverview]
  · simp [getPresenceOverview, List.getElem?_map, hu, overviewForUser, hfail]

theorem overviewForUser_error_presentDays
    (fetchDoc : String → Except Unit (Option MonthlyData)) (y m : Nat)
    (u : RosterUser) (h : (overviewForUser fetchDoc y m u).error = true) :
    (overviewForUser fetchDoc y m u).stats.presentDays = 0 := by
  unfold overviewForUser at h ⊢
  cases hf : fetchDoc (getMonthlyDocId u.userId y m) with
  | error e => rfl
  | ok o =>
    rw [hf] at h
    cases o <;> simp at h

theorem foldl_add_rat {α : Type} (g : α → ℚ) (l : List α) :
    ∀ a : ℚ, l.foldl (fun s u => s + g u) a = a + (l.map g).sum := by
  induction l with
  | nil => intro a; simp
  | cons x xs ih =>
    intro a
    simp only [List.foldl_cons, List.map_cons, List.sum_cons, ih]
    ring

theorem sum_presentDays_zero_on_error
    (fetchDoc : String → Except Unit (Option MonthlyData)) (y m : Nat) :
    ∀ users : List RosterUser,
      ((users.map (overviewForUser fetchDoc y m)).map
        (fun u => (u.stats.presentDays : ℚ))).sum =
      ((users.map (overviewForUser fetchDoc y m)).map
        (fun u => if u.error = true then 0 else (u.stats.presentDays : ℚ))).sum := by
  intro users
  induction users with
  | nil => rfl
  | cons x xs ih =>
    simp only [List.map_cons, List.sum_cons, ih]
    by_cases h : (overviewForUser fetchDoc y m x).error = true
    · rw [if_pos h, overviewForUser_error_presentDays fetchDoc y m x h]
      simp
    · rw [if_neg h]

/-- Claim C6 — for a non-empty roster, `averagePresentDays` is the finite
number obtained by summing `presentDays` over the per-user elements, a failed
user contributing zero, and dividing by the roster size. -/
theorem averagePresentDays_mean_over_roster
    (fetchDoc : String → Except Unit (Option MonthlyData)) (users : List RosterUser)
    (year month : Nat) (h : users ≠ []) :
    (getPresenceOverview fetchDoc users year month).overallStats.averagePresentDays =
      .num ((((getPresenceOverview fetchDoc users year month).users.map
          (fun u => if u.error = true then 0 else (u.stats.presentDays : ℚ))).sum) /
        (users.length : ℚ)) := by
  have h0 : users.length ≠ 0 := fun hl => h (List.length_eq_zero.mp hl)
  have hne : (users.length : ℚ) ≠ 0 := Nat.cast_ne_zero.mpr h0
  simp only [getPresenceOverview, jsDiv, if_neg hne]
  rw [foldl_add_rat, zero_add, sum_presentDays_zero_on_error]

/-- A stored February 2024 document with an empty entries map. -/
def emptyFebDoc : MonthlyData :=
  { userId := "u1", username := "User One", userType := "inhouse", year := 2024,
    month := 1, dates := [], createdAt := "t0", stats := none, updatedAt := none }

/-- A stored February 2024 document with one entry and consistent stats. -/
def febDoc : MonthlyData :=
  { userId := "u1", username := "User One", userType := "inhouse", year := 2024,
    month := 1, dates := [("03", { type := "manual", timestamp := "t0" })],
    createdAt := "t0",
    stats := some (calculateMonthlyStats 2024 1
      [("03", { type := "manual", timestamp := "t0" })]),
    updatedAt := some "t0" }

/-- A fetch in which every document read succeeds with a missing document. -/
def fetchNone : String → Except Unit (Option MonthlyData) := fun _ => .ok none

/-- A fetch that throws exactly for the February 2024 document of user u2. -/
def fetchFailU2 : String → Except Unit (Option MonthlyData) := fun k =>
  if k == "u2_2024_02" then .error () else .ok none

/-- Roster member for concrete evaluations. -/
def rosterU1 : RosterUser :=
  { userId := "u1", name := "U One", email := "u1@x", username := "u1" }

/-- Roster member whose fetch `fetchFailU2` fails. -/
def rosterU2 : RosterUser :=
  { userId := "u2", name := "U Two", email := "u2@x", username := "u2" }

/-- Roster member for concrete evaluations. -/
def rosterU3 : RosterUser :=
  { userId := "u3", name := "U Three", email := "u3@x", username := "u3" }

/-- Witness for claim C2 at an empty store, user u1, date 2024-02-29. -/
theorem markDay_then_markDay_conflict_witness :
    1 ≤ 2 ∧ entryAt [] sampleUser.userId 2024 2 29 = none ∧
    (∃ stats store2,
      markDay [] sampleUser 2024 2 29 "manual" "t1" =
        (.marked 201 "Presence marked successfully" stats, store2) ∧
      entryAt store2 sampleUser.userId 2024 2 29 =
        some { type := "manual", timestamp := "t1" } ∧
      (∃ md2, objGet store2 (getMonthlyDocId sampleUser.userId 2024 (2 - 1)) =
          some md2 ∧
        md2.stats = some (calculateMonthlyStats 2024 (2 - 1) md2.dates)) ∧
      markDay store2 sampleUser 2024 2 29 "manual" "t2" =
        (.conflict 400 "Presence already marked for this date", store2)) :=
  ⟨by decide, rfl,
    markDay_then_markDay_conflict [] sampleUser 2024 2 29 "manual" "t1" "manual" "t2"
      (by decide) rfl⟩

/-- Witness for claim C3: roster u1, u2, u3 for February 2024 with the fetch for
u2 failing — the aggregate still has three elements and the u2 element carries
empty stats and the failure flag. -/
theorem overview_isolates_failures_witness :
    [rosterU1, rosterU2, rosterU3][1]? = some rosterU2 ∧
    fetchFailU2 (getMonthlyDocId rosterU2.userId 2024 (2 - 1)) = .error () ∧
    ((getPresenceOverview fetchFailU2 [rosterU1, rosterU2, rosterU3] 2024 2).users.length =
      [rosterU1, rosterU2, rosterU3].length ∧
    (getPresenceOverview fetchFailU2 [rosterU1, rosterU2, rosterU3] 2024 2).users[1]? =
      some { user := rosterU2
             stats := calculateUserMonthlyStats 2024 (2 - 1) (some [])
             presentDates := []
             hasData := false
             error := true }) :=
  ⟨rfl, rfl,
    overview_isolates_failures fetchFailU2 [rosterU1, rosterU2, rosterU3] 2024 2
      rosterU2 1 rfl rfl⟩

/-- Witness for claim C4: no document for u1 in February 2024 in the empty
store, versus a store holding `emptyFebDoc` under the same key. -/
theorem getMonth_absent_synthesizes_empty_witness :
    objGet ([] : Store) (getMonthlyDocId "u1" 2024 (2 - 1)) = none ∧
    objGet [("u1_2024_02", emptyFebDoc)] (getMonthlyDocId "u1" 2024 (2 - 1)) =
      some emptyFebDoc ∧
    emptyFebDoc.dates = [] ∧
    (getUserMonthlyPresence [] "u1" 2024 2 =
      { presenceRecords := []
        stats := calculateUserMonthlyStats 2024 (2 - 1) (some [])
        month := (2 - 1) + 1
        year := 2024
        totalRecords := 0 } ∧
    (getUserMonthlyPresence [("u1_2024_02", emptyFebDoc)] "u1" 2024 2).stats =
      (getUserMonthlyPresence [] "u1" 2024 2).stats) :=
  ⟨rfl, by decide, rfl,
    getMonth_absent_synthesizes_empty [] [("u1_2024_02", emptyFebDoc)] "u1" 2024 2
      emptyFebDoc rfl (by decide) rfl⟩

/-- Witness for claim C5: the store holding `febDoc` (entry on the 03, stats
consistent), marking and unmarking 2024-02-10. -/
theorem mark_unmark_roundtrip_witness :
    1 ≤ 2 ∧
    ((∀ md, objGet [("u1_2024_02", febDoc)]
        (getMonthlyDocId sampleUser.userId 2024 (2 - 1)) = some md →
      objGet md.dates (pad2 10) = none →
      md.stats = some (calculateMonthlyStats 2024 (2 - 1) md.dates) →
      ∃ md3,
        objGet (unmarkDay (markDay [("u1_2024_02", febDoc)] sampleUser 2024 2 10
            "manual" "t1").2 sampleUser 2024 2 10 "t2").2
          (getMonthlyDocId sampleUser.userId 2024 (2 - 1)) = some md3 ∧
        md3.dates = md.dates ∧ md3.stats = md.stats) ∧
    (objGet [("u1_2024_02", febDoc)]
        (getMonthlyDocId sampleUser.userId 2024 (2 - 1)) = none →
      ∃ md3,
        objGet (unmarkDay (markDay [("u1_2024_02", febDoc)] sampleUser 2024 2 10
            "manual" "t1").2 sampleUser 2024 2 10 "t2").2
          (getMonthlyDocId sampleUser.userId 2024 (2 - 1)) = some md3 ∧
        md3.dates = [] ∧
        md3.stats = some (calculateMonthlyStats 2024 (2 - 1) []))) :=
  ⟨by decide,
    mark_unmark_roundtrip [("u1_2024_02", febDoc)] sampleUser 2024 2 10 "manual"
      "t1" "t2" (by decide)⟩

/-- Witness for claim C6: singleton roster u1 in February 2024, no document
stored — the average is the finite number 0 / 1. -/
theorem averagePresentDays_mean_over_roster_witness :
    [rosterU1] ≠ ([] : List RosterUser) ∧
    (getPresenceOverview fetchNone [rosterU1] 2024 2).overallStats.averagePresentDays =
      .num ((((getPresenceOverview fetchNone [rosterU1] 2024 2).users.map
          (fun u => if u.error = true then 0 else (u.stats.presentDays : ℚ))).sum) /
        (([rosterU1] : List RosterUser).length : ℚ)) :=
  ⟨by decide,
    averagePresentDays_mean_over_roster fetchNone [rosterU1] 2024 2 (by decide)⟩

/-- Witness for claim C9: u1 with 2024-02-03 already marked in the store. -/
theorem markFromActivity_noop_on_conflict_witness :
    1 ≤ 2 ∧
    (((entryAt [("u1_2024_02", febDoc)] sampleUser.userId 2024 2 3).isSome = true →
      markFromActivity [("u1_2024_02", febDoc)] sampleUser 2024 2 3 "t1" =
        ({ status := 200, message := "Presence already marked for this date" },
         [("u1_2024_02", febDoc)])) ∧
    (entryAt [("u1_2024_02", febDoc)] sampleUser.userId 2024 2 3 = none →
      (markFromActivity [("u1_2024_02", febDoc)] sampleUser 2024 2 3 "t1").1 =
        { status := 201, message := "Presence marked through activity participation" } ∧
      entryAt (markFromActivity [("u1_2024_02", febDoc)] sampleUser 2024 2 3 "t1").2
          sampleUser.userId 2024 2 3 =
        some { type := "activity", timestamp := "t1" }) ∧
    ({ status := 200, message := "Presence already marked for this date" } :
        HttpResponse) ≠
      { status := 201, message := "Presence marked through activity participation" }) :=
  ⟨by decide,
    markFromActivity_noop_on_conflict [("u1_2024_02", febDoc)] sampleUser 2024 2 3 "t1"
      (by decide)⟩

example : dayOfWeekUTC 1970 0 1 = 4 := by decide

example : dayOfWeekUTC 2024 1 3 = 6 := by decide

example : saturdaysOf 2024 1 = ["03", "10", "17", "24"] := by decide

example : daysInMonth 2024 1 = 29 ∧ daysInMonth 2023 1 = 28 := by decide

end Presence
